import Mathlib

/-!
Shallow embedding of `src/strck/src/hls/check.rs`: the HLS media-playlist
conformance engine (`MediaPlaylistCheck`).  Rust methods that mutate `self`
and log events become Lean functions from the engine state to a tuple of
emitted events, emitted metric samples and (optionally) a successor state;
a `none` successor models a Rust panic (`unwrap()` on `None`, or a failed
`assert_eq!`), which aborts the evaluation of the exchange.  Events the
source logs before a panic are still listed, since the event sink is
observable before the process aborts.
-/

/-- Severity at which an event is sent to the `EventSink`
(`log.error` / `log.warning` / `log.info` in the source). -/
inductive Severity where
  | error
  | warning
  | info
deriving DecidableEq, Repr

/-- The observable data of one HTTP exchange (`HttpRef` in the source):
an opaque identity plus the response headers the checker consults. -/
structure Exchange where
  id : Nat
  content_type : Option String
  age_header : Option String
  date_header : Option String
  last_modified_header : Option String
deriving DecidableEq, Repr

/-- Source `ManifestRef`: an exchange reference plus an optional line. -/
structure ManifestRef where
  req_id : Exchange
  line : Option Nat
deriving DecidableEq, Repr

/-- Source `Delta`: the before/after reference pair carried by
cross-snapshot events. -/
structure Delta where
  before : ManifestRef
  after : ManifestRef
deriving DecidableEq, Repr

/-- One parsed media segment (`hls_m3u8::parser::MyMediaSegment`): absolute
number, URI, discontinuity flag, duration (milliseconds) and optional
byte range (in its string form). -/
structure MediaSegment where
  number : Nat
  uri : String
  has_discontinuity : Bool
  duration_millis : Nat
  byte_range : Option String
deriving DecidableEq, Repr

/-- One parsed media playlist (`hls_m3u8::parser::MyMediaPlaylist`), with
durations in milliseconds. -/
structure MediaPlaylist where
  target_duration_millis : Nat
  media_sequence : Nat
  has_end_list : Bool
  has_i_frames_only : Bool
  has_independent_segments : Bool
  segments : List MediaSegment
deriving DecidableEq, Repr

/-- Source `playlist.last_segment()`: the final entry of the segment list, if any. -/
def MediaPlaylist.last_segment (p : MediaPlaylist) : Option MediaSegment :=
  p.segments.getLast?

/-- Source `PlaylistInfo`: a parsed playlist paired with the
exchange that produced it. -/
structure PlaylistInfo where
  playlist : MediaPlaylist
  href : Exchange
deriving DecidableEq, Repr

/-- The event vocabulary (`HlsEvent` in the source), restricted to the
variants the checker emits, with the same payload fields. -/
inductive HlsEvent where
  | httpErrorStatus (req_id : Exchange) (status_code : Nat)
  | httpTimeout (req_id : Exchange)
  | slowMediaManifestResponse (req_id : Exchange)
      (response_time_millis : Nat) (target_duration_millis : Nat)
  | streamEnd (req_id : Exchange)
  | unexpectedPlaylistPropertyRemoval (delta : Delta) (name : String)
  | unexpectedPlaylistPropertyAddition (delta : Delta) (name : String)
  | targetDurationChanged (delta : Delta)
      (last_target_duration_millis : Nat) (this_target_duration_millis : Nat)
  | contentTypeChanged (delta : Delta)
      (last_content_type : Option String) (this_content_type : Option String)
  | endListTagRemoved
  | msnGoneBackwards (delta : Delta) (last_msn : Nat) (this_msn : Nat)
  | liveSegmentsRemoved (delta : Delta) (last_msn : Nat) (this_msn : Nat)
      (removed_count : Nat)
  | manifestStale (delta : Delta) (since_list_update : Nat)
  | manifestHistoryChangedUri (delta : Delta) (msn : Nat)
      (last_uri : String) (this_uri : String)
  | manifestHistoryAddedDiscontinuity (delta : Delta) (msn : Nat)
  | manifestHistoryRemovedDiscontinuity (delta : Delta) (msn : Nat)
  | manifestHistoryChangedSegmentDuration (delta : Delta) (msn : Nat)
      (last_duration_millis : Nat) (this_duration_millis : Nat)
  | manifestHistoryChangedSegmentByterange (delta : Delta) (msn : Nat)
      (last_byterange : Option String) (this_byterange : Option String)
  | incorrectContentType (req_id : Exchange) (content_type : Option String)
  | cachedTooLong (req_id : Exchange) (age : Nat) (target_duration : Nat)
deriving DecidableEq, Repr

/-- An emitted event together with the severity it was logged at. -/
abbrev Ev := Severity × HlsEvent

/-- Source `LastError`: the kind of the most recently reported fault. -/
inductive LastError where
  | none
  | httpError (code : Nat)
  | timeout
deriving DecidableEq, Repr

/-- Modelled from the spec: the Rolling Timeline (`super::timeline`, whose
source file is not part of `src/`) is specified only through its two
operations; its tracked contents are modelled as the list of tracked
segments. -/
abbrev Timeline := List MediaSegment

/-- Modelled from the spec: `Timeline::remove_older_than` evicts every
tracked segment whose number is below the cutoff. -/
def Timeline.remove_older_than (t : Timeline) (cutoff : Nat) : Timeline :=
  t.filter (fun s => decide (cutoff ≤ s.number))

/-- Modelled from the spec: `Timeline::append_new_segments` appends the
segments the caller computed to be new. -/
def Timeline.append_new_segments (t : Timeline) (segs : List MediaSegment) : Timeline :=
  t ++ segs

/-- The engine state (`MediaPlaylistCheck` in the source), minus the event
sink and metric sink, whose outputs are returned explicitly. -/
structure MediaPlaylistCheck where
  last_playlist : Option PlaylistInfo
  timeline : Timeline
  since_last_update : Nat
  last_fresh_playlist_req : Option Exchange
  final_msn : Option Nat
  ended : Bool
  last_error : LastError
deriving DecidableEq, Repr

/-- Source `MediaPlaylistCheck::new`. -/
def MediaPlaylistCheck.new : MediaPlaylistCheck :=
  { last_playlist := none
    timeline := []
    since_last_update := 0
    last_fresh_playlist_req := none
    final_msn := none
    ended := false
    last_error := LastError.none }

/-- The free function `delta` from the source. -/
def delta (before after : PlaylistInfo) : Delta :=
  { before := { req_id := before.href, line := none }
    after := { req_id := after.href, line := none } }

/-- Modelled from the spec: stand-in for `FromStr`-parsing a header value
(the source's free function `header_val`, used for the `Age` header);
abstracted as decimal natural-number parsing. -/
def header_val (header : String) : Option Nat :=
  header.toNat?

/-- The free function `age` from the source: parse the `Age` header, if any. -/
def age (ex : Exchange) : Option Nat :=
  ex.age_header.bind header_val

/-- Modelled from the spec: stand-in for `httpdate::parse_http_date` (an
external crate); a header parses to a timestamp exactly when well-formed,
abstracted as decimal parsing. -/
def parse_http_date (s : String) : Option Nat :=
  s.toNat?

/-- Source `MediaPlaylistCheck::not_modified`. -/
def not_modified (st : MediaPlaylistCheck) : MediaPlaylistCheck :=
  { st with since_last_update := st.since_last_update + 1 }

/-- Source `MediaPlaylistCheck::error_status`. -/
def error_status (st : MediaPlaylistCheck) (href : Exchange) (status : Nat) :
    MediaPlaylistCheck × List Ev :=
  let evt := HlsEvent.httpErrorStatus href status
  let evs :=
    match st.last_error with
    | LastError.httpError e =>
      if e = status then [(Severity.warning, evt)] else [(Severity.error, evt)]
    | _ => [(Severity.error, evt)]
  ({ st with last_error := LastError.httpError status }, evs)

/-- Source `MediaPlaylistCheck::timeout`. -/
def timeout (st : MediaPlaylistCheck) (req : Exchange) :
    MediaPlaylistCheck × List Ev :=
  let evt := HlsEvent.httpTimeout req
  let evs :=
    match st.last_error with
    | LastError.timeout => [(Severity.warning, evt)]
    | _ => [(Severity.error, evt)]
  ({ st with last_error := LastError.timeout }, evs)

/-- Source `MediaPlaylistCheck::check_invariant_properties`: emit errors when
stream-lifetime-constant properties change between snapshots. -/
def check_invariant_properties (last this : PlaylistInfo) : List Ev :=
  let evs_iframes :=
    if last.playlist.has_i_frames_only ≠ this.playlist.has_i_frames_only then
      if last.playlist.has_i_frames_only then
        [(Severity.error,
          HlsEvent.unexpectedPlaylistPropertyRemoval (delta last this) "EXT-X-I-FRAMES-ONLY")]
      else
        [(Severity.error,
          HlsEvent.unexpectedPlaylistPropertyAddition (delta last this) "EXT-X-I-FRAMES-ONLY")]
    else []
  let evs_indep :=
    if last.playlist.has_independent_segments ≠ this.playlist.has_independent_segments then
      if last.playlist.has_independent_segments then
        [(Severity.error,
          HlsEvent.unexpectedPlaylistPropertyRemoval (delta last this) "ext-x-independent-segments")]
      else
        [(Severity.error,
          HlsEvent.unexpectedPlaylistPropertyAddition (delta last this) "ext-x-independent-segments")]
    else []
  let evs_target :=
    if last.playlist.target_duration_millis ≠ this.playlist.target_duration_millis then
      [(Severity.error,
        HlsEvent.targetDurationChanged (delta last this)
          last.playlist.target_duration_millis this.playlist.target_duration_millis)]
    else []
  let evs_ctype :=
    if last.href.content_type ≠ this.href.content_type then
      [(Severity.warning,
        HlsEvent.contentTypeChanged (delta last this)
          last.href.content_type this.href.content_type)]
    else []
  evs_iframes ++ evs_indep ++ evs_target ++ evs_ctype

/-- Source `MediaPlaylistCheck::check_segment_invariant`: compare one pair of
same-numbered segments from consecutive snapshots. -/
def check_segment_invariant (last this : PlaylistInfo)
    (last_seg this_seg : MediaSegment) : List Ev :=
  if last_seg.uri ≠ this_seg.uri then
    -- the source returns here: other checks are skipped once the URI differs
    [(Severity.error,
      HlsEvent.manifestHistoryChangedUri (delta last this) this_seg.number
        last_seg.uri this_seg.uri)]
  else
    let evs_disc :=
      if last_seg.has_discontinuity ≠ this_seg.has_discontinuity then
        if this_seg.has_discontinuity then
          [(Severity.error,
            HlsEvent.manifestHistoryAddedDiscontinuity (delta last this) this_seg.number)]
        else
          [(Severity.error,
            HlsEvent.manifestHistoryRemovedDiscontinuity (delta last this) this_seg.number)]
      else []
    let evs_dur :=
      if last_seg.duration_millis ≠ this_seg.duration_millis then
        [(Severity.error,
          HlsEvent.manifestHistoryChangedSegmentDuration (delta last this) this_seg.number
            last_seg.duration_millis this_seg.duration_millis)]
      else []
    let evs_range :=
      if last_seg.byte_range ≠ this_seg.byte_range then
        [(Severity.error,
          HlsEvent.manifestHistoryChangedSegmentByterange (delta last this) this_seg.number
            last_seg.byte_range this_seg.byte_range)]
      else []
    evs_disc ++ evs_dur ++ evs_range

/-- The loop body of `check_manifest_history_invariant`: walk the zipped
pairs in order; on the first pair whose numbers differ the source's
`assert_eq!` panics (the Bool result `true` means "panicked"), otherwise
run `check_segment_invariant` on the pair and continue. -/
def history_loop (last this : PlaylistInfo) :
    List (MediaSegment × MediaSegment) → List Ev × Bool
  | [] => ([], false)
  | (last_seg, this_seg) :: rest =>
    if last_seg.number = this_seg.number then
      let evs := check_segment_invariant last this last_seg this_seg
      let (evs_rest, panicked) := history_loop last this rest
      (evs ++ evs_rest, panicked)
    else
      ([], true)

/-- The pair list built by `check_manifest_history_invariant`: the prior
snapshot's segments from offset `skip = this.media_sequence − last.media_sequence`,
zipped with the new snapshot's segments from the start. -/
def historyPairs (last this : PlaylistInfo) : List (MediaSegment × MediaSegment) :=
  let skip := this.playlist.media_sequence - last.playlist.media_sequence
  (last.playlist.segments.drop skip).zip this.playlist.segments

/-- Source `MediaPlaylistCheck::check_manifest_history_invariant`. -/
def check_manifest_history_invariant (last this : PlaylistInfo) : List Ev × Bool :=
  history_loop last this (historyPairs last this)

/-- Source `MediaPlaylistCheck::check_stale`.  `none` models the `unwrap()` panic on
`last_fresh_playlist_req` (unreachable from states the engine actually builds). -/
def check_stale (st : MediaPlaylistCheck) (this : PlaylistInfo) :
    Option (MediaPlaylistCheck × List Ev) :=
  let this_msn := this.playlist.last_segment.map MediaSegment.number
  let step : Option (MediaPlaylistCheck × List Ev) :=
    match st.final_msn, this_msn with
    | some final_msn, some msn =>
      if final_msn ≥ msn then
        if st.since_last_update > 1 then
          match st.last_fresh_playlist_req with
          | none => none
          | some fresh =>
            let event := HlsEvent.manifestStale
              { before := { req_id := fresh, line := none }
                after := { req_id := this.href, line := none } }
              st.since_last_update
            if st.since_last_update > 2 then
              some (st, [(Severity.error, event)])
            else
              some (st, [(Severity.warning, event)])
        else
          some (st, [])
      else
        some ({ st with since_last_update := 0,
                        last_fresh_playlist_req := some this.href }, [])
    | _, _ => some (st, [])
  match step with
  | none => none
  | some (st1, evs) =>
    some ({ st1 with since_last_update := st1.since_last_update + 1,
                     final_msn := this_msn }, evs)

/-- Source `MediaPlaylistCheck::update_timeline`.  `none` models the `unwrap()`
panic when the prior playlist has no last segment. -/
def update_timeline (st : MediaPlaylistCheck) (last this : PlaylistInfo) :
    Option MediaPlaylistCheck :=
  let tl := Timeline.remove_older_than st.timeline this.playlist.media_sequence
  match last.playlist.last_segment with
  | none => none
  | some end_seg =>
    let end_msn := end_seg.number
    let skip :=
      if end_msn ≥ this.playlist.media_sequence then
        1 + end_msn - this.playlist.media_sequence
      else 0
    some { st with
      timeline := Timeline.append_new_segments tl (this.playlist.segments.drop skip) }

/-- Source `MediaPlaylistCheck::check_update`: the sequencing check.  The metric
samples sent to `msn_regression` are returned as the middle component;
`none` in the last component models a panic (both `last_segment().unwrap()`
calls, the history assertion, and the panics of the nested checks). -/
def check_update (st : MediaPlaylistCheck) (last this : PlaylistInfo) :
    List Ev × List Nat × Option MediaPlaylistCheck :=
  let evs_end :=
    if last.playlist.has_end_list && !this.playlist.has_end_list then
      [(Severity.warning, HlsEvent.endListTagRemoved)]
    else []
  if last.playlist.media_sequence > this.playlist.media_sequence then
    let regression := last.playlist.media_sequence - this.playlist.media_sequence
    (evs_end ++
      [(Severity.error,
        HlsEvent.msnGoneBackwards (delta last this)
          last.playlist.media_sequence this.playlist.media_sequence)],
      [regression], some st)
  else
    -- the `.put(0)` happens before the `unwrap()` calls on the last segments
    match last.playlist.last_segment, this.playlist.last_segment with
    | some last_seg, some this_seg =>
      if last_seg.number > this_seg.number then
        let removed_count := last_seg.number - this_seg.number
        let event := HlsEvent.liveSegmentsRemoved (delta last this)
          last_seg.number this_seg.number removed_count
        if removed_count > 1 then
          (evs_end ++ [(Severity.error, event)], [0], some st)
        else
          (evs_end ++ [(Severity.warning, event)], [0], some st)
      else
        let (evs_hist, panicked) := check_manifest_history_invariant last this
        if panicked then
          (evs_end ++ evs_hist, [0], none)
        else
          match check_stale st this with
          | none => (evs_end ++ evs_hist, [0], none)
          | some (st1, evs_stale) =>
            match update_timeline st1 last this with
            | none => (evs_end ++ evs_hist ++ evs_stale, [0], none)
            | some st2 => (evs_end ++ evs_hist ++ evs_stale, [0], some st2)
    | _, _ => (evs_end, [0], none)

/-- Source `MediaPlaylistCheck::check_initial_configuration`. -/
def check_initial_configuration (this : PlaylistInfo) : List Ev :=
  if this.href.content_type ≠ some "application/vnd.apple.mpegurl" then
    [(Severity.error,
      HlsEvent.incorrectContentType this.href this.href.content_type)]
  else []

/-- Source `MediaPlaylistCheck::check_headers`.  The `Date` / `Last-Modified`
causality comparison is computed but its alert is suppressed in the source,
so the second component always contributes no event. -/
def check_headers (this : PlaylistInfo) : List Ev :=
  let evs_age :=
    match age this.href with
    | some a =>
      if a * 1000 > this.playlist.target_duration_millis then
        [(Severity.warning,
          HlsEvent.cachedTooLong this.href a (this.playlist.target_duration_millis / 1000))]
      else []
    | none => []
  let evs_date :=
    match this.href.date_header.bind parse_http_date,
          this.href.last_modified_header.bind parse_http_date with
    | some date_time, some last_modified_time =>
      if last_modified_time > date_time then
        [] -- the source computes this but keeps the emission commented out
      else []
    | _, _ => []
  evs_age ++ evs_date

/-- The tail of `MediaPlaylistCheck::next_playlist` after the snapshot
branch: header sanity, slow-response alert, end-of-stream latch, and the
unconditional replacement of the stored snapshot. -/
def next_playlist_finish (st : MediaPlaylistCheck) (playlist_info : PlaylistInfo)
    (total_time_millis : Nat) : MediaPlaylistCheck × List Ev :=
  let evs_headers := check_headers playlist_info
  let evs_slow :=
    if total_time_millis ≥ playlist_info.playlist.target_duration_millis then
      [(Severity.error,
        HlsEvent.slowMediaManifestResponse playlist_info.href
          total_time_millis playlist_info.playlist.target_duration_millis)]
    else []
  let step :=
    if playlist_info.playlist.has_end_list && !st.ended then
      ({ st with ended := true }, [(Severity.info, HlsEvent.streamEnd playlist_info.href)])
    else (st, [])
  ({ step.1 with last_playlist := some playlist_info },
   evs_headers ++ evs_slow ++ step.2)

/-- Source `MediaPlaylistCheck::next_playlist`: the central transition.  Returns
the emitted events in order, the metric samples put to `msn_regression`,
and the successor state (`none` when the evaluation panics). -/
def next_playlist (st : MediaPlaylistCheck) (href : Exchange)
    (playlist : MediaPlaylist) (total_time_millis : Nat) :
    List Ev × List Nat × Option MediaPlaylistCheck :=
  let st0 := { st with last_error := LastError.none }
  let playlist_info : PlaylistInfo := { playlist := playlist, href := href }
  match st0.last_playlist with
  | some last_playlist =>
    let st1 := { st0 with last_playlist := none }
    let evs_inv := check_invariant_properties last_playlist playlist_info
    match check_update st1 last_playlist playlist_info with
    | (evs_upd, metrics, none) => (evs_inv ++ evs_upd, metrics, none)
    | (evs_upd, metrics, some st2) =>
      let fin := next_playlist_finish st2 playlist_info total_time_millis
      (evs_inv ++ evs_upd ++ fin.2, metrics, some fin.1)
  | none =>
    let evs_init := check_initial_configuration playlist_info
    let st1 := { st0 with
      timeline := Timeline.append_new_segments st0.timeline playlist.segments,
      last_fresh_playlist_req := some playlist_info.href }
    let fin := next_playlist_finish st1 playlist_info total_time_millis
    (evs_init ++ fin.2, [], some fin.1)

/-- One exchange outcome reported to the engine: exactly one of the four
public entry points. -/
inductive Op where
  | notModified
  | errorStatus (href : Exchange) (status : Nat)
  | timeoutOf (href : Exchange)
  | nextPlaylist (href : Exchange) (playlist : MediaPlaylist) (total_time_millis : Nat)
deriving DecidableEq, Repr

/-- Apply one entry point to the engine state.  The three failure/absence
entry points never panic; only `next_playlist` can. -/
def applyOp (st : MediaPlaylistCheck) : Op → List Ev × List Nat × Option MediaPlaylistCheck
  | Op.notModified => ([], [], some (not_modified st))
  | Op.errorStatus href status =>
    let r := error_status st href status
    (r.2, [], some r.1)
  | Op.timeoutOf href =>
    let r := timeout st href
    (r.2, [], some r.1)
  | Op.nextPlaylist href playlist total_time_millis =>
    next_playlist st href playlist total_time_millis

/-- Run a sequence of entry points, accumulating all emitted events; a
panic aborts the run (no further operation is processed). -/
def runOps (st : MediaPlaylistCheck) : List Op → List Ev × Option MediaPlaylistCheck
  | [] => ([], some st)
  | op :: rest =>
    match applyOp st op with
    | (evs, _, none) => (evs, none)
    | (evs, _, some st1) =>
      let r := runOps st1 rest
      (evs ++ r.1, r.2)

/-- Recognise a `manifestStale` event. -/
def isManifestStale (e : Ev) : Bool :=
  match e with
  | (_, HlsEvent.manifestStale _ _) => true
  | _ => false

/-- Recognise an `msnGoneBackwards` event. -/
def isMsnGoneBackwards (e : Ev) : Bool :=
  match e with
  | (_, HlsEvent.msnGoneBackwards _ _ _) => true
  | _ => false

/-- Recognise a `liveSegmentsRemoved` event. -/
def isLiveSegmentsRemoved (e : Ev) : Bool :=
  match e with
  | (_, HlsEvent.liveSegmentsRemoved _ _ _ _) => true
  | _ => false

/-- Recognise a `streamEnd` event. -/
def isStreamEnd (e : Ev) : Bool :=
  match e with
  | (_, HlsEvent.streamEnd _) => true
  | _ => false

/-- Recognise any of the four history-invariant events. -/
def isHistoryEvent (e : Ev) : Bool :=
  match e with
  | (_, HlsEvent.manifestHistoryChangedUri _ _ _ _) => true
  | (_, HlsEvent.manifestHistoryAddedDiscontinuity _ _) => true
  | (_, HlsEvent.manifestHistoryRemovedDiscontinuity _ _) => true
  | (_, HlsEvent.manifestHistoryChangedSegmentDuration _ _ _ _) => true
  | (_, HlsEvent.manifestHistoryChangedSegmentByterange _ _ _ _) => true
  | _ => false

/-- Recognise a `manifestHistoryAddedDiscontinuity` or
`manifestHistoryRemovedDiscontinuity` event. -/
def isHistoryDiscontinuity (e : Ev) : Bool :=
  match e with
  | (_, HlsEvent.manifestHistoryAddedDiscontinuity _ _) => true
  | (_, HlsEvent.manifestHistoryRemovedDiscontinuity _ _) => true
  | _ => false

/-- Recognise a `manifestHistoryChangedSegmentDuration` event. -/
def isHistoryDuration (e : Ev) : Bool :=
  match e with
  | (_, HlsEvent.manifestHistoryChangedSegmentDuration _ _ _ _) => true
  | _ => false

/-- Recognise a `manifestHistoryChangedSegmentByterange` event. -/
def isHistoryByterange (e : Ev) : Bool :=
  match e with
  | (_, HlsEvent.manifestHistoryChangedSegmentByterange _ _ _ _) => true
  | _ => false

/-- Recognise a `manifestHistoryChangedUri` event. -/
def isHistoryChangedUri (e : Ev) : Bool :=
  match e with
  | (_, HlsEvent.manifestHistoryChangedUri _ _ _ _) => true
  | _ => false

/-- A playlist's segment numbering is consistent with its media sequence
number: the segment at index `i` carries absolute number
`media_sequence + i` (what the upstream parser produces). -/
def SegmentNumbersConsistent (p : MediaPlaylist) : Prop :=
  ∀ i, (h : i < p.segments.length) → (p.segments.get ⟨i, h⟩).number = p.media_sequence + i

/-- A plain media segment used by the concrete scenarios. -/
def seg (n : Nat) : MediaSegment :=
  { number := n, uri := "s.ts", has_discontinuity := false,
    duration_millis := 6000, byte_range := none }

/-- A scenario segment with a chosen URI. -/
def segUri (n : Nat) (u : String) : MediaSegment :=
  { seg n with uri := u }

/-- A scenario exchange with the correct media-playlist content type and no
other headers. -/
def exch (i : Nat) : Exchange :=
  { id := i, content_type := some "application/vnd.apple.mpegurl",
    age_header := none, date_header := none, last_modified_header := none }

/-- A live scenario playlist with the given media sequence number and segments. -/
def plMk (msn : Nat) (segs : List MediaSegment) : MediaPlaylist :=
  { target_duration_millis := 6000, media_sequence := msn, has_end_list := false,
    has_i_frames_only := false, has_independent_segments := false, segments := segs }

/-- A scenario playlist holding the single segment `n`, with media sequence `n`. -/
def oneSegPlaylist (n : Nat) : MediaPlaylist :=
  plMk n [seg n]

/-- A tracking-mode engine state: prior snapshot `pi`, arbitrary timeline,
fresh reference, ended flag and fault state; staleness state as right after
the first snapshot was seen (counter `0`, final MSN not yet known). -/
def trackingState (pi : PlaylistInfo) (tl : Timeline) (fr : Exchange)
    (b : Bool) (le : LastError) : MediaPlaylistCheck :=
  { last_playlist := some pi, timeline := tl, since_last_update := 0,
    last_fresh_playlist_req := some fr, final_msn := none, ended := b, last_error := le }

/-- Start state of the staleness-hysteresis scenario: the prior snapshot
reports last segment `n` and the final MSN is not yet known. -/
def staleStart (n : Nat) (tl : Timeline) (fr : Exchange) (b : Bool)
    (le : LastError) : MediaPlaylistCheck :=
  trackingState { playlist := oneSegPlaylist n, href := exch 0 } tl fr b le

/-- Call list of the staleness-hysteresis scenario: four sane calls whose
playlists report last segment `n`, then two whose playlists report the
strictly larger last segment `m`. -/
def staleOps (n m : Nat) : List Op :=
  [Op.nextPlaylist (exch 1) (oneSegPlaylist n) 0,
   Op.nextPlaylist (exch 2) (oneSegPlaylist n) 0,
   Op.nextPlaylist (exch 3) (oneSegPlaylist n) 0,
   Op.nextPlaylist (exch 4) (oneSegPlaylist n) 0,
   Op.nextPlaylist (exch 5) (oneSegPlaylist m) 0,
   Op.nextPlaylist (exch 6) (oneSegPlaylist m) 0]

/-- A list of `count` consecutive scenario segments starting at number `start`. -/
def rangeSegs (start count : Nat) : List MediaSegment :=
  (List.range count).map (fun i => seg (start + i))

/-- Start state of the empty-playlist scenario: tracking a one-segment
prior snapshot with media sequence 5. -/
def emptyScenarioState : MediaPlaylistCheck :=
  trackingState { playlist := plMk 5 [seg 5], href := exch 0 } [] (exch 0) false LastError.none

/-- The empty playlist fed in the empty-playlist scenario: media sequence 5,
no segments at all (hence no last segment). -/
def emptyPlaylist : MediaPlaylist :=
  plMk 5 []

/-- Start state of the history-pairing-violation scenario: the prior snapshot
has media sequence 10 and one segment correctly numbered 10. -/
def pairingScenarioState : MediaPlaylistCheck :=
  trackingState { playlist := plMk 10 [segUri 10 "a.ts"], href := exch 0 } [] (exch 0) false
    LastError.none

/-- The malformed new snapshot of the history-pairing-violation scenario: it
still has media sequence 10 but its only segment carries number 99, so the
zipped pair (10, 99) violates the pairing assertion. -/
def mismatchedPlaylist : MediaPlaylist :=
  plMk 10 [segUri 99 "a.ts"]

/-- Start state of the timeline scenario from the spec: prior snapshot with
media sequence 10 and segments 10–15; the timeline tracks the same segments. -/
def timelineScenarioState : MediaPlaylistCheck :=
  trackingState { playlist := plMk 10 (rangeSegs 10 6), href := exch 0 } (rangeSegs 10 6)
    (exch 0) false LastError.none

/-- The new snapshot of the timeline scenario: media sequence 12, segments 12–17. -/
def timelineNewPlaylist : MediaPlaylist :=
  plMk 12 (rangeSegs 12 6)

/-- Start state of the history-diff scenario from the spec: the prior
snapshot lists segment 12 with URI "a.ts". -/
def uriScenarioState : MediaPlaylistCheck :=
  trackingState { playlist := plMk 12 [segUri 12 "a.ts"], href := exch 0 } [] (exch 0) false
    LastError.none

/-- The new snapshot of the history-diff scenario: segment 12 now has URI
"b.ts" and is otherwise identical. -/
def uriNewPlaylist : MediaPlaylist :=
  plMk 12 [segUri 12 "b.ts"]

theorem check_invariant_properties_filter (p : Ev → Bool)
    (h1 : ∀ d s1, p (Severity.error, HlsEvent.unexpectedPlaylistPropertyRemoval d s1) = false)
    (h2 : ∀ d s1, p (Severity.error, HlsEvent.unexpectedPlaylistPropertyAddition d s1) = false)
    (h3 : ∀ d a b1, p (Severity.error, HlsEvent.targetDurationChanged d a b1) = false)
    (h4 : ∀ d a b1, p (Severity.warning, HlsEvent.contentTypeChanged d a b1) = false)
    (last this : PlaylistInfo) :
    (check_invariant_properties last this).filter p = [] := by
  unfold check_invariant_properties
  split_ifs <;> simp [h1, h2, h3, h4]

theorem check_headers_filter (p : Ev → Bool)
    (h1 : ∀ r a td, p (Severity.warning, HlsEvent.cachedTooLong r a td) = false)
    (this : PlaylistInfo) :
    (check_headers this).filter p = [] := by
  unfold check_headers
  cases age this.href <;>
    cases this.href.date_header.bind parse_http_date <;>
      cases this.href.last_modified_header.bind parse_http_date <;>
        simp [h1, apply_ite (List.filter p), ite_self]

theorem check_segment_invariant_filter (p : Ev → Bool)
    (h1 : ∀ d m u1 u2, p (Severity.error, HlsEvent.manifestHistoryChangedUri d m u1 u2) = false)
    (h2 : ∀ d m, p (Severity.error, HlsEvent.manifestHistoryAddedDiscontinuity d m) = false)
    (h3 : ∀ d m, p (Severity.error, HlsEvent.manifestHistoryRemovedDiscontinuity d m) = false)
    (h4 : ∀ d m a b1, p (Severity.error, HlsEvent.manifestHistoryChangedSegmentDuration d m a b1) = false)
    (h5 : ∀ d m a b1, p (Severity.error, HlsEvent.manifestHistoryChangedSegmentByterange d m a b1) = false)
    (last this : PlaylistInfo) (x y : MediaSegment) :
    (check_segment_invariant last this x y).filter p = [] := by
  unfold check_segment_invariant
  split_ifs <;> simp [h1, h2, h3, h4, h5]

theorem history_loop_filter (p : Ev → Bool)
    (h1 : ∀ d m u1 u2, p (Severity.error, HlsEvent.manifestHistoryChangedUri d m u1 u2) = false)
    (h2 : ∀ d m, p (Severity.error, HlsEvent.manifestHistoryAddedDiscontinuity d m) = false)
    (h3 : ∀ d m, p (Severity.error, HlsEvent.manifestHistoryRemovedDiscontinuity d m) = false)
    (h4 : ∀ d m a b1, p (Severity.error, HlsEvent.manifestHistoryChangedSegmentDuration d m a b1) = false)
    (h5 : ∀ d m a b1, p (Severity.error, HlsEvent.manifestHistoryChangedSegmentByterange d m a b1) = false)
    (last this : PlaylistInfo) (prs : List (MediaSegment × MediaSegment)) :
    ((history_loop last this prs).1).filter p = [] := by
  induction prs with
  | nil => rfl
  | cons pr rest ih =>
    rcases pr with ⟨x, y⟩
    unfold history_loop
    split_ifs <;>
      simp [List.filter_append, check_segment_invariant_filter p h1 h2 h3 h4 h5, ih]

theorem next_playlist_finish_state (st : MediaPlaylistCheck) (pi : PlaylistInfo) (t : Nat) :
    (next_playlist_finish st pi t).1 =
      { st with last_playlist := some pi,
                ended := st.ended || pi.playlist.has_end_list } := by
  unfold next_playlist_finish
  cases hb : pi.playlist.has_end_list <;> cases he : st.ended <;> split_ifs <;> simp_all

theorem next_playlist_finish_filter (p : Ev → Bool)
    (h1 : ∀ r a td, p (Severity.warning, HlsEvent.cachedTooLong r a td) = false)
    (h2 : ∀ r a b1, p (Severity.error, HlsEvent.slowMediaManifestResponse r a b1) = false)
    (h3 : ∀ r, p (Severity.info, HlsEvent.streamEnd r) = false)
    (st : MediaPlaylistCheck) (pi : PlaylistInfo) (t : Nat) :
    ((next_playlist_finish st pi t).2).filter p = [] := by
  unfold next_playlist_finish
  split_ifs <;> simp [List.filter_append, check_headers_filter p h1, h2, h3]

theorem next_playlist_finish_streamEnd (st : MediaPlaylistCheck) (pi : PlaylistInfo) (t : Nat) :
    ((next_playlist_finish st pi t).2).countP isStreamEnd =
      (if pi.playlist.has_end_list && !st.ended then 1 else 0) := by
  unfold next_playlist_finish
  split_ifs <;>
    simp [List.countP_append, List.countP_eq_length_filter,
      check_headers_filter isStreamEnd (by intros; rfl),
      apply_ite (List.filter isStreamEnd), isStreamEnd, List.countP_cons]

theorem check_stale_some (st : MediaPlaylistCheck) (pi : PlaylistInfo) (fr : Exchange)
    (hfr : st.last_fresh_playlist_req = some fr) :
    ∃ st1 evs, check_stale st pi = some (st1, evs) ∧
      st1.timeline = st.timeline ∧ st1.last_error = st.last_error ∧
      st1.last_playlist = st.last_playlist ∧ st1.ended = st.ended := by
  unfold check_stale
  rw [hfr]
  rcases hfm : st.final_msn with _ | fm <;>
    rcases hlast : pi.playlist.last_segment with _ | ls <;>
      simp <;> split_ifs <;> simp

theorem check_stale_preserves (st : MediaPlaylistCheck) (pi : PlaylistInfo)
    (st1 : MediaPlaylistCheck) (evs : List Ev)
    (h : check_stale st pi = some (st1, evs)) :
    st1.timeline = st.timeline ∧ st1.last_error = st.last_error ∧
    st1.last_playlist = st.last_playlist ∧ st1.ended = st.ended := by
  unfold check_stale at h
  rcases hfm : st.final_msn with _ | fm <;> rw [hfm] at h <;>
    rcases hlast : pi.playlist.last_segment with _ | ls <;> rw [hlast] at h <;>
      rcases hfr : st.last_fresh_playlist_req with _ | fr <;> rw [hfr] at h <;>
        simp at h <;>
          (try split_ifs at h) <;>
            (try simp at h) <;>
              (rcases h with ⟨h1, h2⟩; subst h1; simp)

theorem check_stale_events (st : MediaPlaylistCheck) (pi : PlaylistInfo)
    (st1 : MediaPlaylistCheck) (evs : List Ev)
    (h : check_stale st pi = some (st1, evs)) (p : Ev → Bool)
    (h1 : ∀ s d m, p (s, HlsEvent.manifestStale d m) = false) :
    evs.filter p = [] := by
  unfold check_stale at h
  rcases hfm : st.final_msn with _ | fm <;> rw [hfm] at h <;>
    rcases hlast : pi.playlist.last_segment with _ | ls <;> rw [hlast] at h <;>
      rcases hfr : st.last_fresh_playlist_req with _ | fr <;> rw [hfr] at h <;>
        simp at h <;>
          (try split_ifs at h) <;>
            (try simp at h) <;>
              (rcases h with ⟨h1a, h2a⟩; subst h2a; simp [h1])

theorem update_timeline_eq (st : MediaPlaylistCheck) (last this : PlaylistInfo)
    (ls : MediaSegment) (hl : last.playlist.last_segment = some ls) :
    update_timeline st last this = some { st with
      timeline := Timeline.append_new_segments
        (Timeline.remove_older_than st.timeline this.playlist.media_sequence)
        (this.playlist.segments.drop
          (if ls.number ≥ this.playlist.media_sequence then
            1 + ls.number - this.playlist.media_sequence
          else 0)) } := by
  unfold update_timeline
  rw [hl]

theorem check_update_regression_eq (st : MediaPlaylistCheck) (last this : PlaylistInfo)
    (h : this.playlist.media_sequence < last.playlist.media_sequence) :
    check_update st last this =
      ((if last.playlist.has_end_list && !this.playlist.has_end_list then
          [(Severity.warning, HlsEvent.endListTagRemoved)]
        else []) ++
        [(Severity.error,
          HlsEvent.msnGoneBackwards (delta last this)
            last.playlist.media_sequence this.playlist.media_sequence)],
       [last.playlist.media_sequence - this.playlist.media_sequence], some st) := by
  unfold check_update
  rw [if_pos h]

theorem check_update_removal_eq (st : MediaPlaylistCheck) (last this : PlaylistInfo)
    (ls ts : MediaSegment)
    (hmsn : ¬ last.playlist.media_sequence > this.playlist.media_sequence)
    (hl : last.playlist.last_segment = some ls) (ht : this.playlist.last_segment = some ts)
    (hrem : ts.number < ls.number) :
    check_update st last this =
      ((if last.playlist.has_end_list && !this.playlist.has_end_list then
          [(Severity.warning, HlsEvent.endListTagRemoved)]
        else []) ++
        [((if ls.number - ts.number > 1 then Severity.error else Severity.warning),
          HlsEvent.liveSegmentsRemoved (delta last this) ls.number ts.number
            (ls.number - ts.number))],
       [0], some st) := by
  unfold check_update
  rw [if_neg hmsn, hl, ht]
  simp only [hrem, if_pos]
  split_ifs <;> simp_all

theorem check_update_sane_eq (st : MediaPlaylistCheck) (last this : PlaylistInfo)
    (ls ts : MediaSegment) (st1 : MediaPlaylistCheck) (evs_stale : List Ev)
    (st2 : MediaPlaylistCheck)
    (hmsn : ¬ last.playlist.media_sequence > this.playlist.media_sequence)
    (hl : last.playlist.last_segment = some ls) (ht : this.playlist.last_segment = some ts)
    (hord : ¬ ls.number > ts.number)
    (hhist : (check_manifest_history_invariant last this).2 = false)
    (hstale : check_stale st this = some (st1, evs_stale))
    (hupd : update_timeline st1 last this = some st2) :
    check_update st last this =
      ((if last.playlist.has_end_list && !this.playlist.has_end_list then
          [(Severity.warning, HlsEvent.endListTagRemoved)]
        else []) ++
        (check_manifest_history_invariant last this).1 ++ evs_stale,
       [0], some st2) := by
  unfold check_update
  rw [if_neg hmsn, hl, ht]
  dsimp only
  rw [if_neg hord]
  have heta : check_manifest_history_invariant last this =
      ((check_manifest_history_invariant last this).1, false) := by
    rw [← hhist]
  rw [heta]
  dsimp only
  rw [hstale]
  dsimp only
  rw [hupd]
  rfl

theorem check_initial_configuration_filter (p : Ev → Bool)
    (h1 : ∀ r c, p (Severity.error, HlsEvent.incorrectContentType r c) = false)
    (this : PlaylistInfo) :
    (check_initial_configuration this).filter p = [] := by
  unfold check_initial_configuration
  split_ifs <;> simp [h1]

theorem next_playlist_tracking (st : MediaPlaylistCheck) (last : PlaylistInfo)
    (hst : st.last_playlist = some last) (href : Exchange) (p : MediaPlaylist) (t : Nat) :
    next_playlist st href p t =
      (match check_update { st with last_error := LastError.none, last_playlist := none } last
          { playlist := p, href := href } with
       | (evs_upd, metrics, none) =>
         (check_invariant_properties last { playlist := p, href := href } ++ evs_upd,
          metrics, none)
       | (evs_upd, metrics, some st2) =>
         (check_invariant_properties last { playlist := p, href := href } ++ evs_upd ++
            (next_playlist_finish st2 { playlist := p, href := href } t).2,
          metrics, some (next_playlist_finish st2 { playlist := p, href := href } t).1)) := by
  unfold next_playlist
  dsimp only
  rw [hst]

theorem check_update_metrics_nonregression (st : MediaPlaylistCheck) (last this : PlaylistInfo)
    (hmsn : ¬ last.playlist.media_sequence > this.playlist.media_sequence) :
    (check_update st last this).2.1 = [0] := by
  unfold check_update
  rw [if_neg hmsn]
  repeat' first | rfl | split | (dsimp only)

theorem check_update_some_preserves (st : MediaPlaylistCheck) (last this : PlaylistInfo)
    (st2 : MediaPlaylistCheck) (h : (check_update st last this).2.2 = some st2) :
    st2.last_error = st.last_error ∧ st2.last_playlist = st.last_playlist ∧
    st2.ended = st.ended := by
  unfold check_update at h
  split_ifs at h <;>
    (try (simp at h; subst h; exact ⟨rfl, rfl, rfl⟩)) <;>
      split at h <;>
        (try (simp at h)) <;>
          split_ifs at h <;>
            (try (simp at h; subst h; exact ⟨rfl, rfl, rfl⟩)) <;>
              (rename_i hls hts hnum hnp
               rcases hstale : check_stale st this with _ | p1 <;> rw [hstale] at h <;>
                 simp at h
               rcases p1 with ⟨st1, evs1⟩
               rcases hupd : update_timeline st1 last this with _ | stx <;> rw [hupd] at h <;>
                 simp at h
               subst h
               have hp := check_stale_preserves st this st1 evs1 hstale
               rename_i last_seg this_seg
               rw [update_timeline_eq st1 last this last_seg hls] at hupd
               simp at hupd
               subst hupd
               simp [hp.1, hp.2.1, hp.2.2.1, hp.2.2.2])

theorem next_playlist_some_last_error (st : MediaPlaylistCheck) (href : Exchange)
    (p : MediaPlaylist) (t : Nat) (st2 : MediaPlaylistCheck)
    (h : (next_playlist st href p t).2.2 = some st2) : st2.last_error = LastError.none := by
  rcases hlp : st.last_playlist with _ | last
  · unfold next_playlist at h
    dsimp only at h
    rw [hlp] at h
    simp at h
    subst h
    rw [next_playlist_finish_state]
  · rw [next_playlist_tracking st last hlp href p t] at h
    rcases hcu : check_update { st with last_error := LastError.none, last_playlist := none }
        last { playlist := p, href := href } with ⟨evs, ms, ost⟩
    rw [hcu] at h
    rcases ost with _ | stx
    · simp at h
    · simp at h
      subst h
      rw [next_playlist_finish_state]
      have hp := check_update_some_preserves _ last { playlist := p, href := href } stx
        (by rw [hcu])
      simpa using hp.1

theorem next_playlist_ended (st : MediaPlaylistCheck) (href : Exchange)
    (p : MediaPlaylist) (t : Nat) (st2 : MediaPlaylistCheck)
    (h : (next_playlist st href p t).2.2 = some st2) :
    st2.ended = (st.ended || p.has_end_list) := by
  rcases hlp : st.last_playlist with _ | last
  · unfold next_playlist at h
    dsimp only at h
    rw [hlp] at h
    simp at h
    subst h
    rw [next_playlist_finish_state]
  · rw [next_playlist_tracking st last hlp href p t] at h
    rcases hcu : check_update { st with last_error := LastError.none, last_playlist := none }
        last { playlist := p, href := href } with ⟨evs, ms, ost⟩
    rw [hcu] at h
    rcases ost with _ | stx
    · simp at h
    · simp at h
      subst h
      rw [next_playlist_finish_state]
      have hp := check_update_some_preserves _ last { playlist := p, href := href } stx
        (by rw [hcu])
      simp [hp.2.2]

theorem check_stale_shape (st : MediaPlaylistCheck) (pi : PlaylistInfo) :
    check_stale st pi = none ∨ (∃ st1, check_stale st pi = some (st1, [])) ∨
      (∃ st1 sev d m, check_stale st pi = some (st1, [(sev, HlsEvent.manifestStale d m)])) := by
  unfold check_stale
  rcases hfm : st.final_msn with _ | fm <;>
    rcases hlast : pi.playlist.last_segment with _ | ls <;>
      rcases hfr : st.last_fresh_playlist_req with _ | fr <;>
        simp <;> split_ifs <;>
          first
            | exact Or.inl rfl
            | exact Or.inr (Or.inl ⟨_, rfl⟩)
            | exact Or.inr (Or.inr ⟨_, _, _, _, rfl⟩)

theorem check_update_no_streamEnd (st : MediaPlaylistCheck) (last this : PlaylistInfo) :
    ((check_update st last this).1).filter isStreamEnd = [] := by
  have hlf : ((check_manifest_history_invariant last this).1).filter isStreamEnd = [] :=
    history_loop_filter isStreamEnd (fun _ _ _ _ => rfl) (fun _ _ => rfl)
      (fun _ _ => rfl) (fun _ _ _ _ => rfl) (fun _ _ _ _ => rfl) last this
      (historyPairs last this)
  unfold check_update
  rcases hh : check_manifest_history_invariant last this with ⟨evsh, pk⟩
  rw [hh] at hlf
  simp only at hlf
  rcases hl : last.playlist.last_segment with _ | ls <;>
    rcases ht : this.playlist.last_segment with _ | ts <;>
      rcases check_stale_shape st this with hcs | ⟨st1, hcs⟩ | ⟨st1, sev, d, m, hcs⟩ <;>
        rw [hcs] <;>
          (try (dsimp only)) <;>
            (try (rcases Option.eq_none_or_eq_some (update_timeline st1 last this)
              with hu | ⟨stx, hu⟩ <;> rw [hu])) <;>
              (try (dsimp only)) <;>
                split_ifs <;>
                  ((try (simp [List.filter_append, hlf])) <;> (try (simp [isStreamEnd])) <;>
                    (try (rintro a b ⟨rfl, rfl⟩; rfl)) <;>
                      (try (intro a b hab
                            rcases hab with hab | ⟨rfl, rfl⟩
                            · have h9 := List.filter_eq_nil_iff.mp hlf _ hab
                              simpa [isStreamEnd] using h9
                            · rfl)) <;>
                        (try (intro a b hab
                              have h9 := List.filter_eq_nil_iff.mp hlf _ hab
                              simpa [isStreamEnd] using h9)))

theorem error_status_no_streamEnd (st : MediaPlaylistCheck) (href : Exchange) (c : Nat) :
    ((error_status st href c).2).countP isStreamEnd = 0 := by
  unfold error_status
  cases st.last_error <;> dsimp only <;> (try split_ifs) <;> rfl

theorem timeout_no_streamEnd (st : MediaPlaylistCheck) (href : Exchange) :
    ((timeout st href).2).countP isStreamEnd = 0 := by
  unfold timeout
  cases st.last_error <;> rfl

theorem next_playlist_streamEnd_none (st : MediaPlaylistCheck) (href : Exchange)
    (p : MediaPlaylist) (t : Nat) (h : (next_playlist st href p t).2.2 = none) :
    ((next_playlist st href p t).1).countP isStreamEnd = 0 := by
  rcases hlp : st.last_playlist with _ | last
  · unfold next_playlist at h
    dsimp only at h
    rw [hlp] at h
    simp at h
  · rw [next_playlist_tracking st last hlp href p t] at h ⊢
    rcases hcu : check_update { st with last_error := LastError.none, last_playlist := none }
        last { playlist := p, href := href } with ⟨evs, ms, ost⟩
    rcases ost with _ | stx
    · have hev : evs.filter isStreamEnd = [] := by
        have h0 := check_update_no_streamEnd
          { st with last_error := LastError.none, last_playlist := none } last
          { playlist := p, href := href }
        rw [hcu] at h0
        simpa using h0
      simp [List.countP_append, List.countP_eq_length_filter, hev,
        check_invariant_properties_filter isStreamEnd (fun _ _ => rfl) (fun _ _ => rfl)
          (fun _ _ _ => rfl) (fun _ _ _ => rfl)]
    · rw [hcu] at h
      simp at h

theorem next_playlist_streamEnd_some (st : MediaPlaylistCheck) (href : Exchange)
    (p : MediaPlaylist) (t : Nat) (st2 : MediaPlaylistCheck)
    (h : (next_playlist st href p t).2.2 = some st2) :
    ((next_playlist st href p t).1).countP isStreamEnd =
      (if p.has_end_list && !st.ended then 1 else 0) := by
  rcases hlp : st.last_playlist with _ | last
  · unfold next_playlist
    dsimp only
    rw [hlp]
    dsimp only
    simp [List.countP_append, List.countP_eq_length_filter,
      check_initial_configuration_filter isStreamEnd (fun _ _ => rfl)]
    rw [← List.countP_eq_length_filter]
    rw [next_playlist_finish_streamEnd]
    cases st.ended <;> cases p.has_end_list <;> simp
  · rw [next_playlist_tracking st last hlp href p t] at h ⊢
    rcases hcu : check_update { st with last_error := LastError.none, last_playlist := none }
        last { playlist := p, href := href } with ⟨evs, ms, ost⟩
    rcases ost with _ | stx
    · rw [hcu] at h
      simp at h
    · have hev : evs.filter isStreamEnd = [] := by
        have h0 := check_update_no_streamEnd
          { st with last_error := LastError.none, last_playlist := none } last
          { playlist := p, href := href }
        rw [hcu] at h0
        simpa using h0
      have hpres := check_update_some_preserves
        { st with last_error := LastError.none, last_playlist := none } last
        { playlist := p, href := href } stx (by rw [hcu])
      simp [List.countP_append, List.countP_eq_length_filter, hev,
        check_invariant_properties_filter isStreamEnd (fun _ _ => rfl) (fun _ _ => rfl)
          (fun _ _ _ => rfl) (fun _ _ _ => rfl)]
      rw [← List.countP_eq_length_filter]
      rw [next_playlist_finish_streamEnd]
      rw [show stx.ended = st.ended from hpres.2.2]
      cases st.ended <;> cases p.has_end_list <;> simp

theorem runOps_streamEnd_bound (ops : List Op) : ∀ st : MediaPlaylistCheck,
    ((runOps st ops).1).countP isStreamEnd ≤ (if st.ended then 0 else 1) := by
  induction ops with
  | nil =>
    intro st
    simp [runOps]
  | cons op rest ih =>
    intro st
    unfold runOps
    rcases hap : applyOp st op with ⟨evs, ms, ost⟩
    rcases ost with _ | st1
    · dsimp only
      rcases op with _ | ⟨href, c⟩ | href | ⟨href, p, t⟩ <;> simp [applyOp] at hap
      have hpan : (next_playlist st href p t).2.2 = none := by rw [hap]
      have hev : (next_playlist st href p t).1 = evs := by rw [hap]
      rw [← hev, next_playlist_streamEnd_none st href p t hpan]
      split_ifs <;> omega
    · dsimp only
      rw [List.countP_append]
      rcases op with _ | ⟨href, c⟩ | href | ⟨href, p, t⟩
      · simp [applyOp] at hap
        obtain ⟨hev, hms, hst⟩ := hap
        subst hev
        subst hst
        have hrest := ih (not_modified st)
        simp [not_modified] at hrest ⊢
        exact hrest
      · simp [applyOp] at hap
        obtain ⟨hev, hms, hst⟩ := hap
        subst hev
        subst hst
        rw [error_status_no_streamEnd]
        have he1 : (error_status st href c).1 = { st with last_error := LastError.httpError c } :=
          rfl
        have hrest := ih (error_status st href c).1
        rw [he1] at hrest ⊢
        simpa using hrest
      · simp [applyOp] at hap
        obtain ⟨hev, hms, hst⟩ := hap
        subst hev
        subst hst
        rw [timeout_no_streamEnd]
        have he1 : (timeout st href).1 = { st with last_error := LastError.timeout } := rfl
        have hrest := ih (timeout st href).1
        rw [he1] at hrest ⊢
        simpa using hrest
      · simp [applyOp] at hap
        have hst : (next_playlist st href p t).2.2 = some st1 := by rw [hap]
        have hev : (next_playlist st href p t).1 = evs := by rw [hap]
        have hcnt := next_playlist_streamEnd_some st href p t st1 hst
        have hend := next_playlist_ended st href p t st1 hst
        rw [← hev, hcnt]
        have hrest := ih st1
        rw [hend] at hrest
        revert hrest
        cases st.ended <;> cases p.has_end_list <;> simp <;> omega

/-- Claim C10: (frame of the failure entry points): `error_status` and `timeout`
change only the Fault State (`last_error`), emit exactly one event and no
metric sample; the snapshot, timeline, staleness counter, final MSN, fresh
baseline reference, ended latch and regression metric are untouched. -/
theorem failure_entry_points_frame :
    (∀ (st : MediaPlaylistCheck) (href : Exchange) (c : Nat),
        (applyOp st (Op.errorStatus href c)).2.1 = [] ∧
        ((applyOp st (Op.errorStatus href c)).1).length = 1 ∧
        (applyOp st (Op.errorStatus href c)).2.2 =
          some { st with last_error := LastError.httpError c }) ∧
    (∀ (st : MediaPlaylistCheck) (href : Exchange),
        (applyOp st (Op.timeoutOf href)).2.1 = [] ∧
        ((applyOp st (Op.timeoutOf href)).1).length = 1 ∧
        (applyOp st (Op.timeoutOf href)).2.2 =
          some { st with last_error := LastError.timeout }) := by
  constructor
  · intro st href c
    refine ⟨rfl, ?_, rfl⟩
    unfold applyOp error_status
    dsimp only
    cases st.last_error <;> dsimp only <;> (try split_ifs) <;> rfl
  · intro st href
    refine ⟨rfl, ?_, rfl⟩
    unfold applyOp timeout
    dsimp only
    cases st.last_error <;> rfl

/-- Claim C5: (fault escalation): from a clean fault state, two `error_status`
calls with the same status code yield one error-severity event then one
warning-severity event; a different status code on the second call yields
two error events; and any successful `next_playlist` call resets the fault
state, so the next fault of either kind is reported at error severity. -/
theorem fault_escalation :
    (∀ (st : MediaPlaylistCheck) (h1 h2 : Exchange) (c : Nat),
        st.last_error = LastError.none →
        (error_status st h1 c).2 = [(Severity.error, HlsEvent.httpErrorStatus h1 c)] ∧
        (error_status (error_status st h1 c).1 h2 c).2 =
          [(Severity.warning, HlsEvent.httpErrorStatus h2 c)]) ∧
    (∀ (st : MediaPlaylistCheck) (h1 h2 : Exchange) (c1 c2 : Nat),
        st.last_error = LastError.none → c1 ≠ c2 →
        (error_status st h1 c1).2 = [(Severity.error, HlsEvent.httpErrorStatus h1 c1)] ∧
        (error_status (error_status st h1 c1).1 h2 c2).2 =
          [(Severity.error, HlsEvent.httpErrorStatus h2 c2)]) ∧
    (∀ (st : MediaPlaylistCheck) (href : Exchange) (p : MediaPlaylist) (t : Nat)
        (st2 : MediaPlaylistCheck), (next_playlist st href p t).2.2 = some st2 →
        (∀ (h3 : Exchange) (c : Nat),
          (error_status st2 h3 c).2 = [(Severity.error, HlsEvent.httpErrorStatus h3 c)]) ∧
        (∀ h3 : Exchange, (timeout st2 h3).2 = [(Severity.error, HlsEvent.httpTimeout h3)])) := by
  refine ⟨?_, ?_, ?_⟩
  · intro st h1 h2 c hcl
    unfold error_status
    rw [hcl]
    simp
  · intro st h1 h2 c1 c2 hcl hne
    unfold error_status
    rw [hcl]
    simp [hne]
  · intro st href p t st2 hsucc
    have hcl := next_playlist_some_last_error st href p t st2 hsucc
    constructor
    · intro h3 c
      unfold error_status
      rw [hcl]
    · intro h3
      unfold timeout
      rw [hcl]

/-- Claim C3: (fail-soft on absent data) — evidence for the code bug: feeding an
otherwise-valid exchange whose playlist has no last segment does not fail
soft; `check_update` panics on `last_segment().unwrap()` (Rust source line
224), aborting the evaluation of the exchange (successor state `none`),
despite the source's own TODO at line 207 ("handle playlists that are
empty, without panicking") and the spec's fail-soft requirement. -/
theorem empty_playlist_aborts :
    next_playlist emptyScenarioState (exch 1) emptyPlaylist 0 = ([], [0], none) := by
  rfl

theorem fault_escalation_witness :
    ((error_status MediaPlaylistCheck.new (exch 1) 500).2 =
        [(Severity.error, HlsEvent.httpErrorStatus (exch 1) 500)] ∧
      (error_status (error_status MediaPlaylistCheck.new (exch 1) 500).1 (exch 2) 500).2 =
        [(Severity.warning, HlsEvent.httpErrorStatus (exch 2) 500)]) ∧
    ((error_status MediaPlaylistCheck.new (exch 1) 500).2 =
        [(Severity.error, HlsEvent.httpErrorStatus (exch 1) 500)] ∧
      (error_status (error_status MediaPlaylistCheck.new (exch 1) 500).1 (exch 2) 404).2 =
        [(Severity.error, HlsEvent.httpErrorStatus (exch 2) 404)]) ∧
    ((error_status
        { last_playlist := some { playlist := oneSegPlaylist 5, href := exch 1 },
          timeline := [seg 5], since_last_update := 0,
          last_fresh_playlist_req := some (exch 1), final_msn := none, ended := false,
          last_error := LastError.none } (exch 3) 404).2 =
      [(Severity.error, HlsEvent.httpErrorStatus (exch 3) 404)]) ∧
    ((timeout
        { last_playlist := some { playlist := oneSegPlaylist 5, href := exch 1 },
          timeline := [seg 5], since_last_update := 0,
          last_fresh_playlist_req := some (exch 1), final_msn := none, ended := false,
          last_error := LastError.none } (exch 3)).2 =
      [(Severity.error, HlsEvent.httpTimeout (exch 3))]) :=
  ⟨fault_escalation.1 MediaPlaylistCheck.new (exch 1) (exch 2) 500 rfl,
   fault_escalation.2.1 MediaPlaylistCheck.new (exch 1) (exch 2) 500 404 rfl (by decide),
   (fault_escalation.2.2 MediaPlaylistCheck.new (exch 1) (oneSegPlaylist 5) 0
      { last_playlist := some { playlist := oneSegPlaylist 5, href := exch 1 },
        timeline := [seg 5], since_last_update := 0,
        last_fresh_playlist_req := some (exch 1), final_msn := none, ended := false,
        last_error := LastError.none } (by decide)).1 (exch 3) 404,
   (fault_escalation.2.2 MediaPlaylistCheck.new (exch 1) (oneSegPlaylist 5) 0
      { last_playlist := some { playlist := oneSegPlaylist 5, href := exch 1 },
        timeline := [seg 5], since_last_update := 0,
        last_fresh_playlist_req := some (exch 1), final_msn := none, ended := false,
        last_error := LastError.none } (by decide)).2 (exch 3)⟩

/-- Claim C4: — counterexample to the claim as stated: on a snapshot pair whose
zipped segments carry different absolute numbers (prior segment numbered 10
against new segment numbered 99), the `assert_eq!` in
`check_manifest_history_invariant` panics: the evaluation aborts (successor
state `none`) and no event (in particular no reported internal defect) is
emitted. -/
theorem history_pairing_abort_counterexample :
    next_playlist pairingScenarioState (exch 1) mismatchedPlaylist 0 = ([], [0], none) := by
  rfl

theorem history_loop_panicked (last this : PlaylistInfo)
    (prs : List (MediaSegment × MediaSegment)) :
    (history_loop last this prs).2 = true ↔ ∃ pr ∈ prs, pr.1.number ≠ pr.2.number := by
  induction prs with
  | nil => simp [history_loop]
  | cons pr rest ih =>
    rcases pr with ⟨x, y⟩
    rcases hrec : history_loop last this rest with ⟨a, b⟩
    rw [hrec] at ih
    unfold history_loop
    rw [hrec]
    split_ifs with hxy <;> simp_all

/-- Claim C4: (amended): each pair zipped by the History Invariant carries the
identical absolute segment number whenever both playlists number their
segments consistently with their media sequence numbers
(`number = media_sequence + index`); a violation of the pairing is never
silently passed — the check aborts (the `assert_eq!` panic) exactly when
some zipped pair carries different numbers — but it aborts the evaluation
rather than reporting an internal-defect event. -/
theorem history_pairing_consistency :
    (∀ last this : PlaylistInfo,
        SegmentNumbersConsistent last.playlist → SegmentNumbersConsistent this.playlist →
        last.playlist.media_sequence ≤ this.playlist.media_sequence →
        ∀ pr ∈ historyPairs last this, pr.1.number = pr.2.number) ∧
    (∀ last this : PlaylistInfo,
        (check_manifest_history_invariant last this).2 = true ↔
          ∃ pr ∈ historyPairs last this, pr.1.number ≠ pr.2.number) := by
  constructor
  · intro last this hwl hwt hmsn pr hpr
    unfold historyPairs at hpr
    rw [List.mem_iff_getElem] at hpr
    obtain ⟨i, hi, hget⟩ := hpr
    rw [List.getElem_zip] at hget
    have hlen := hi
    rw [List.length_zip] at hlen
    have hil : i < (last.playlist.segments.drop
        (this.playlist.media_sequence - last.playlist.media_sequence)).length :=
      lt_of_lt_of_le hlen (min_le_left _ _)
    have hit : i < this.playlist.segments.length :=
      lt_of_lt_of_le hlen (min_le_right _ _)
    have hild : (this.playlist.media_sequence - last.playlist.media_sequence) + i <
        last.playlist.segments.length := by
      rw [List.length_drop] at hil
      omega
    have h1 : ((last.playlist.segments.drop
        (this.playlist.media_sequence - last.playlist.media_sequence))[i]).number =
        last.playlist.media_sequence +
          ((this.playlist.media_sequence - last.playlist.media_sequence) + i) := by
      rw [List.getElem_drop]
      have := hwl ((this.playlist.media_sequence - last.playlist.media_sequence) + i) hild
      simpa [List.get_eq_getElem] using this
    have h2 : (this.playlist.segments[i]).number = this.playlist.media_sequence + i := by
      have := hwt i hit
      simpa [List.get_eq_getElem] using this
    rw [← hget]
    simp only [h1, h2]
    omega
  · intro last this
    exact history_loop_panicked last this (historyPairs last this)

theorem history_pairing_consistency_witness :
    ((segUri 10 "a.ts", segUri 10 "a.ts").1.number =
      (segUri 10 "a.ts", segUri 10 "a.ts").2.number) ∧
    ((check_manifest_history_invariant { playlist := plMk 10 [segUri 10 "a.ts"], href := exch 0 }
        { playlist := plMk 10 [segUri 10 "a.ts"], href := exch 1 }).2 = true ↔
      ∃ pr ∈ historyPairs { playlist := plMk 10 [segUri 10 "a.ts"], href := exch 0 }
          { playlist := plMk 10 [segUri 10 "a.ts"], href := exch 1 },
        pr.1.number ≠ pr.2.number) :=
  ⟨history_pairing_consistency.1
      { playlist := plMk 10 [segUri 10 "a.ts"], href := exch 0 }
      { playlist := plMk 10 [segUri 10 "a.ts"], href := exch 1 }
      (by unfold SegmentNumbersConsistent; decide) (by unfold SegmentNumbersConsistent; decide)
      (by decide) (segUri 10 "a.ts", segUri 10 "a.ts") (by decide),
   history_pairing_consistency.2
      { playlist := plMk 10 [segUri 10 "a.ts"], href := exch 0 }
      { playlist := plMk 10 [segUri 10 "a.ts"], href := exch 1 }⟩

/-- Claim C7: (history URI short-circuit): for a compared segment pair with
differing URIs, exactly one error-severity history-changed-uri event
carrying both URIs is emitted and no discontinuity/duration/byte-range
event for that pair; for pairs with identical URIs each of the three other
fields is compared and a difference in each emits its own error-severity
event.  The last conjunct is the spec's concrete scenario: segment 12
changes URI from "a.ts" to "b.ts" and the whole `next_playlist` call emits
exactly that one event. -/
theorem history_uri_short_circuit :
    (∀ (last this : PlaylistInfo) (x y : MediaSegment), x.uri ≠ y.uri →
        check_segment_invariant last this x y =
          [(Severity.error,
            HlsEvent.manifestHistoryChangedUri (delta last this) y.number x.uri y.uri)]) ∧
    (∀ (last this : PlaylistInfo) (x y : MediaSegment), x.uri = y.uri →
        (check_segment_invariant last this x y).countP isHistoryChangedUri = 0 ∧
        (check_segment_invariant last this x y).countP isHistoryDiscontinuity =
          (if x.has_discontinuity ≠ y.has_discontinuity then 1 else 0) ∧
        (check_segment_invariant last this x y).countP isHistoryDuration =
          (if x.duration_millis ≠ y.duration_millis then 1 else 0) ∧
        (check_segment_invariant last this x y).countP isHistoryByterange =
          (if x.byte_range ≠ y.byte_range then 1 else 0) ∧
        ∀ e ∈ check_segment_invariant last this x y, e.1 = Severity.error) ∧
    ((next_playlist uriScenarioState (exch 1) uriNewPlaylist 0).1 =
      [(Severity.error,
        HlsEvent.manifestHistoryChangedUri
          { before := { req_id := exch 0, line := none }
            after := { req_id := exch 1, line := none } } 12 "a.ts" "b.ts")]) := by
  refine ⟨?_, ?_, by rfl⟩
  · intro last this x y hne
    unfold check_segment_invariant
    rw [if_pos hne]
  · intro last this x y heq
    unfold check_segment_invariant
    rw [if_neg (by simp [heq])]
    refine ⟨?_, ?_, ?_, ?_, ?_⟩ <;>
      split_ifs <;>
        simp_all [List.countP_append, List.countP_cons, isHistoryChangedUri,
          isHistoryDiscontinuity, isHistoryDuration, isHistoryByterange]

theorem history_uri_short_circuit_witness :
    (check_segment_invariant { playlist := plMk 12 [segUri 12 "a.ts"], href := exch 0 }
        { playlist := plMk 12 [segUri 12 "b.ts"], href := exch 1 }
        (segUri 12 "a.ts") (segUri 12 "b.ts") =
      [(Severity.error,
        HlsEvent.manifestHistoryChangedUri
          (delta { playlist := plMk 12 [segUri 12 "a.ts"], href := exch 0 }
            { playlist := plMk 12 [segUri 12 "b.ts"], href := exch 1 }) 12 "a.ts" "b.ts")]) ∧
    ((check_segment_invariant { playlist := plMk 12 [segUri 12 "a.ts"], href := exch 0 }
        { playlist := plMk 12 [segUri 12 "a.ts"], href := exch 1 }
        (segUri 12 "a.ts") (segUri 12 "a.ts")).countP isHistoryChangedUri = 0) :=
  ⟨history_uri_short_circuit.1
      { playlist := plMk 12 [segUri 12 "a.ts"], href := exch 0 }
      { playlist := plMk 12 [segUri 12 "b.ts"], href := exch 1 }
      (segUri 12 "a.ts") (segUri 12 "b.ts") (by decide),
   (history_uri_short_circuit.2.1
      { playlist := plMk 12 [segUri 12 "a.ts"], href := exch 0 }
      { playlist := plMk 12 [segUri 12 "a.ts"], href := exch 1 }
      (segUri 12 "a.ts") (segUri 12 "a.ts") (by decide)).1⟩

/-- Claim C2: (regression metric): every `next_playlist` call on a tracking
engine whose new media sequence number is not lower than the prior one
reports exactly the metric sample `0`; a call whose media sequence number
is lower by `k > 0` reports exactly the sample `k` and emits exactly one
error-severity MSN-gone-backwards event carrying both MSN values. -/
theorem regression_metric :
    (∀ (st : MediaPlaylistCheck) (last : PlaylistInfo) (href : Exchange) (p : MediaPlaylist)
        (t : Nat), st.last_playlist = some last →
        last.playlist.media_sequence ≤ p.media_sequence →
        (next_playlist st href p t).2.1 = [0]) ∧
    (∀ (st : MediaPlaylistCheck) (last : PlaylistInfo) (href : Exchange) (p : MediaPlaylist)
        (t : Nat), st.last_playlist = some last →
        p.media_sequence < last.playlist.media_sequence →
        (next_playlist st href p t).2.1 =
          [last.playlist.media_sequence - p.media_sequence] ∧
        ((next_playlist st href p t).1).filter isMsnGoneBackwards =
          [(Severity.error,
            HlsEvent.msnGoneBackwards (delta last { playlist := p, href := href })
              last.playlist.media_sequence p.media_sequence)]) := by
  constructor
  · intro st last href p t hst hle
    rw [next_playlist_tracking st last hst href p t]
    have hm := check_update_metrics_nonregression
      { st with last_error := LastError.none, last_playlist := none } last
      { playlist := p, href := href } (by simpa using Nat.not_lt.mpr hle)
    rcases hcu : check_update { st with last_error := LastError.none, last_playlist := none }
        last { playlist := p, href := href } with ⟨evs, ms, ost⟩
    rw [hcu] at hm
    simp only at hm
    rcases ost with _ | stx <;> simpa using hm
  · intro st last href p t hst hlt
    rw [next_playlist_tracking st last hst href p t]
    rw [check_update_regression_eq _ last { playlist := p, href := href } (by simpa using hlt)]
    dsimp only
    constructor
    · rfl
    · rw [List.filter_append, List.filter_append, List.filter_append]
      rw [check_invariant_properties_filter isMsnGoneBackwards (fun _ _ => rfl) (fun _ _ => rfl)
        (fun _ _ _ => rfl) (fun _ _ _ => rfl)]
      rw [next_playlist_finish_filter isMsnGoneBackwards (fun _ _ _ => rfl)
        (fun _ _ _ => rfl) (fun _ => rfl)]
      split_ifs <;> rfl

theorem regression_metric_witness :
    ((next_playlist { MediaPlaylistCheck.new with
        last_playlist := some { playlist := oneSegPlaylist 5, href := exch 0 } }
        (exch 1) (oneSegPlaylist 5) 0).2.1 = [0]) ∧
    ((next_playlist { MediaPlaylistCheck.new with
        last_playlist := some { playlist := oneSegPlaylist 5, href := exch 0 } }
        (exch 1) (oneSegPlaylist 3) 0).2.1 = [2] ∧
      ((next_playlist { MediaPlaylistCheck.new with
          last_playlist := some { playlist := oneSegPlaylist 5, href := exch 0 } }
          (exch 1) (oneSegPlaylist 3) 0).1).filter isMsnGoneBackwards =
        [(Severity.error,
          HlsEvent.msnGoneBackwards
            (delta { playlist := oneSegPlaylist 5, href := exch 0 }
              { playlist := oneSegPlaylist 3, href := exch 1 }) 5 3)]) :=
  ⟨regression_metric.1 { MediaPlaylistCheck.new with
      last_playlist := some { playlist := oneSegPlaylist 5, href := exch 0 } }
      { playlist := oneSegPlaylist 5, href := exch 0 } (exch 1) (oneSegPlaylist 5) 0
      rfl (by decide),
   regression_metric.2 { MediaPlaylistCheck.new with
      last_playlist := some { playlist := oneSegPlaylist 5, href := exch 0 } }
      { playlist := oneSegPlaylist 5, href := exch 0 } (exch 1) (oneSegPlaylist 3) 0
      rfl (by decide)⟩

/-- Claim C9: (live-segment removal severity boundary): on a tracking call with
non-decreasing media sequence number whose new last segment number is lower
than the prior one, exactly one live-segments-removed event is emitted,
carrying `removed_count = prior_last − new_last`, at error severity when the
count exceeds 1 and warning severity when it is exactly 1; no staleness or
history event is emitted and the Timeline, staleness counter, final MSN and
fresh baseline reference are all left unchanged (History Invariant,
Staleness Check and Timeline Update do not run). -/
theorem live_segment_removal_severity :
    ∀ (st : MediaPlaylistCheck) (last : PlaylistInfo) (href : Exchange) (p : MediaPlaylist)
      (t : Nat) (ls ts : MediaSegment),
      st.last_playlist = some last →
      last.playlist.media_sequence ≤ p.media_sequence →
      last.playlist.last_segment = some ls →
      p.last_segment = some ts →
      ts.number < ls.number →
      ∃ st2, (next_playlist st href p t).2.2 = some st2 ∧
        ((next_playlist st href p t).1).filter isLiveSegmentsRemoved =
          [((if 1 < ls.number - ts.number then Severity.error else Severity.warning),
            HlsEvent.liveSegmentsRemoved (delta last { playlist := p, href := href })
              ls.number ts.number (ls.number - ts.number))] ∧
        ((next_playlist st href p t).1).filter isManifestStale = [] ∧
        ((next_playlist st href p t).1).filter isHistoryEvent = [] ∧
        st2.timeline = st.timeline ∧ st2.since_last_update = st.since_last_update ∧
        st2.final_msn = st.final_msn ∧
        st2.last_fresh_playlist_req = st.last_fresh_playlist_req := by
  intro st last href p t ls ts hst hle hl ht hrem
  rw [next_playlist_tracking st last hst href p t]
  rw [check_update_removal_eq _ last { playlist := p, href := href } ls ts
    (by simpa using Nat.not_lt.mpr hle) hl (by simpa using ht) hrem]
  dsimp only
  refine ⟨_, rfl, ?_, ?_, ?_, ?_, ?_, ?_, ?_⟩
  · rw [List.filter_append, List.filter_append, List.filter_append]
    rw [check_invariant_properties_filter isLiveSegmentsRemoved (fun _ _ => rfl)
      (fun _ _ => rfl) (fun _ _ _ => rfl) (fun _ _ _ => rfl)]
    rw [next_playlist_finish_filter isLiveSegmentsRemoved (fun _ _ _ => rfl)
      (fun _ _ _ => rfl) (fun _ => rfl)]
    split_ifs <;> rfl
  · rw [List.filter_append, List.filter_append, List.filter_append]
    rw [check_invariant_properties_filter isManifestStale (fun _ _ => rfl)
      (fun _ _ => rfl) (fun _ _ _ => rfl) (fun _ _ _ => rfl)]
    rw [next_playlist_finish_filter isManifestStale (fun _ _ _ => rfl)
      (fun _ _ _ => rfl) (fun _ => rfl)]
    split_ifs <;> rfl
  · rw [List.filter_append, List.filter_append, List.filter_append]
    rw [check_invariant_properties_filter isHistoryEvent (fun _ _ => rfl)
      (fun _ _ => rfl) (fun _ _ _ => rfl) (fun _ _ _ => rfl)]
    rw [next_playlist_finish_filter isHistoryEvent (fun _ _ _ => rfl)
      (fun _ _ _ => rfl) (fun _ => rfl)]
    split_ifs <;> rfl
  · rw [next_playlist_finish_state]
  · rw [next_playlist_finish_state]
  · rw [next_playlist_finish_state]
  · rw [next_playlist_finish_state]

theorem live_segment_removal_severity_witness :
    ∃ st2,
      (next_playlist { MediaPlaylistCheck.new with
          last_playlist := some { playlist := plMk 5 [seg 5, seg 6, seg 7], href := exch 0 } }
        (exch 1) (plMk 5 [seg 5]) 0).2.2 = some st2 ∧
      ((next_playlist { MediaPlaylistCheck.new with
          last_playlist := some { playlist := plMk 5 [seg 5, seg 6, seg 7], href := exch 0 } }
        (exch 1) (plMk 5 [seg 5]) 0).1).filter isLiveSegmentsRemoved =
        [((if 1 < (seg 7).number - (seg 5).number then Severity.error else Severity.warning),
          HlsEvent.liveSegmentsRemoved
            (delta { playlist := plMk 5 [seg 5, seg 6, seg 7], href := exch 0 }
              { playlist := plMk 5 [seg 5], href := exch 1 })
            (seg 7).number (seg 5).number ((seg 7).number - (seg 5).number))] ∧
      ((next_playlist { MediaPlaylistCheck.new with
          last_playlist := some { playlist := plMk 5 [seg 5, seg 6, seg 7], href := exch 0 } }
        (exch 1) (plMk 5 [seg 5]) 0).1).filter isManifestStale = [] ∧
      ((next_playlist { MediaPlaylistCheck.new with
          last_playlist := some { playlist := plMk 5 [seg 5, seg 6, seg 7], href := exch 0 } }
        (exch 1) (plMk 5 [seg 5]) 0).1).filter isHistoryEvent = [] ∧
      st2.timeline = ({ MediaPlaylistCheck.new with
          last_playlist := some { playlist := plMk 5 [seg 5, seg 6, seg 7], href := exch 0 } }
            : MediaPlaylistCheck).timeline ∧
      st2.since_last_update = 0 ∧ st2.final_msn = none ∧
      st2.last_fresh_playlist_req = none := by
  have h := live_segment_removal_severity { MediaPlaylistCheck.new with
      last_playlist := some { playlist := plMk 5 [seg 5, seg 6, seg 7], href := exch 0 } }
    { playlist := plMk 5 [seg 5, seg 6, seg 7], href := exch 0 } (exch 1) (plMk 5 [seg 5]) 0
    (seg 7) (seg 5) rfl (by decide) (by decide) (by decide) (by decide)
  obtain ⟨st2, h1, h2, h3, h4, h5, h6, h7, h8⟩ := h
  exact ⟨st2, h1, h2, h3, h4, h5, h6, h7, h8⟩

/-- Claim C6: (timeline update arithmetic): on every sane `next_playlist`
transition the Timeline first evicts every tracked segment whose number is
below the new playlist's media sequence number, then appends exactly the
new playlist's segments after skipping
`skip = (overlap_end ≥ new.media_sequence) ? (1 + overlap_end − new.media_sequence) : 0`
from the front, where `overlap_end` is the prior snapshot's last segment
number.  The last conjunct is the spec's concrete scenario: prior snapshot
media_sequence 10 with segments 10–15, new snapshot media_sequence 12 with
segments 12–17; segments below 12 are evicted and exactly 16 and 17 are
appended. -/
theorem timeline_update_arithmetic :
    (∀ (st : MediaPlaylistCheck) (last : PlaylistInfo) (href fr : Exchange)
        (p : MediaPlaylist) (t : Nat) (ls ts : MediaSegment),
        st.last_playlist = some last →
        st.last_fresh_playlist_req = some fr →
        last.playlist.media_sequence ≤ p.media_sequence →
        last.playlist.last_segment = some ls →
        p.last_segment = some ts →
        ls.number ≤ ts.number →
        (check_manifest_history_invariant last { playlist := p, href := href }).2 = false →
        ∃ st2, (next_playlist st href p t).2.2 = some st2 ∧
          st2.timeline =
            (st.timeline.filter (fun s => decide (p.media_sequence ≤ s.number))) ++
              p.segments.drop
                (if p.media_sequence ≤ ls.number then
                  1 + ls.number - p.media_sequence
                else 0)) ∧
    ((next_playlist timelineScenarioState (exch 1) timelineNewPlaylist 0).2.2.map
        (fun s => s.timeline) = some (rangeSegs 12 4 ++ rangeSegs 16 2)) := by
  constructor
  · intro st last href fr p t ls ts hst hfr hle hl ht hord hhist
    rw [next_playlist_tracking st last hst href p t]
    obtain ⟨stx, evsx, hstale, htl, herr, hlp2, hend⟩ :=
      check_stale_some { st with last_error := LastError.none, last_playlist := none }
        { playlist := p, href := href } fr hfr
    have hupd := update_timeline_eq stx last { playlist := p, href := href } ls hl
    rw [check_update_sane_eq _ last { playlist := p, href := href } ls ts stx evsx _
      (by simpa using Nat.not_lt.mpr hle) hl (by simpa using ht)
      (by simpa using Nat.not_lt.mpr hord) hhist hstale hupd]
    dsimp only
    refine ⟨_, rfl, ?_⟩
    rw [next_playlist_finish_state]
    dsimp only
    rw [htl]
    rfl
  · rfl

theorem timeline_update_arithmetic_witness :
    ∃ st2,
      (next_playlist timelineScenarioState (exch 1) timelineNewPlaylist 0).2.2 = some st2 ∧
      st2.timeline =
        ((timelineScenarioState.timeline.filter
            (fun s => decide (timelineNewPlaylist.media_sequence ≤ s.number))) ++
          timelineNewPlaylist.segments.drop
            (if timelineNewPlaylist.media_sequence ≤ (seg 15).number then
              1 + (seg 15).number - timelineNewPlaylist.media_sequence
            else 0)) := by
  have h := timeline_update_arithmetic.1 timelineScenarioState
    { playlist := plMk 10 (rangeSegs 10 6), href := exch 0 } (exch 1) (exch 0)
    timelineNewPlaylist 0 (seg 15) (seg 17) rfl rfl (by decide) (by decide) (by decide)
    (by decide) (by decide)
  exact h

/-- Claim C8: (end-of-stream idempotence): over any sequence of entry-point
calls on a fresh engine at most one informational stream-ended event is ever
emitted; once the Ended latch is set no operation emits a further
stream-ended event and no operation resets the latch; and a successful
`next_playlist` on an un-ended engine whose snapshot carries the
end-of-stream marker emits exactly one stream-ended event and sets the
latch. -/
theorem end_of_stream_idempotence :
    (∀ ops : List Op, ((runOps MediaPlaylistCheck.new ops).1).countP isStreamEnd ≤ 1) ∧
    (∀ (st : MediaPlaylistCheck) (op : Op) (evs : List Ev) (ms : List Nat)
        (ost : Option MediaPlaylistCheck), applyOp st op = (evs, ms, ost) →
        st.ended = true →
        evs.countP isStreamEnd = 0 ∧ ∀ st2, ost = some st2 → st2.ended = true) ∧
    (∀ (st : MediaPlaylistCheck) (href : Exchange) (p : MediaPlaylist) (t : Nat)
        (st2 : MediaPlaylistCheck), p.has_end_list = true → st.ended = false →
        (next_playlist st href p t).2.2 = some st2 →
        ((next_playlist st href p t).1).countP isStreamEnd = 1 ∧ st2.ended = true) := by
  refine ⟨?_, ?_, ?_⟩
  · intro ops
    simpa using runOps_streamEnd_bound ops MediaPlaylistCheck.new
  · intro st op evs ms ost hap hended
    rcases op with _ | ⟨href, c⟩ | href | ⟨href, p, t⟩
    · simp [applyOp] at hap
      obtain ⟨hev, hms, host⟩ := hap
      subst hev
      subst host
      refine ⟨rfl, ?_⟩
      intro st2 hx
      have hx2 := Option.some.inj hx
      subst hx2
      simpa [not_modified] using hended
    · simp [applyOp] at hap
      obtain ⟨hev, hms, host⟩ := hap
      subst hev
      subst host
      refine ⟨error_status_no_streamEnd st href c, ?_⟩
      intro st2 hx
      have hx2 := Option.some.inj hx
      subst hx2
      simpa [error_status] using hended
    · simp [applyOp] at hap
      obtain ⟨hev, hms, host⟩ := hap
      subst hev
      subst host
      refine ⟨timeout_no_streamEnd st href, ?_⟩
      intro st2 hx
      have hx2 := Option.some.inj hx
      subst hx2
      simpa [timeout] using hended
    · simp [applyOp] at hap
      have hev : (next_playlist st href p t).1 = evs := by rw [hap]
      have host : (next_playlist st href p t).2.2 = ost := by rw [hap]
      constructor
      · rcases ost with _ | stx
        · rw [← hev]
          exact next_playlist_streamEnd_none st href p t host
        · rw [← hev, next_playlist_streamEnd_some st href p t stx host, hended]
          simp
      · intro st2 hx
        subst hx
        rw [next_playlist_ended st href p t st2 host, hended]
        simp
  · intro st href p t st2 hpe hended hsucc
    constructor
    · rw [next_playlist_streamEnd_some st href p t st2 hsucc, hpe, hended]
      simp
    · rw [next_playlist_ended st href p t st2 hsucc, hpe, hended]
      simp

theorem end_of_stream_idempotence_witness :
    (((runOps MediaPlaylistCheck.new
        [Op.nextPlaylist (exch 1)
            { target_duration_millis := 6000, media_sequence := 5, has_end_list := true,
              has_i_frames_only := false, has_independent_segments := false,
              segments := [seg 5] } 0,
          Op.nextPlaylist (exch 2)
            { target_duration_millis := 6000, media_sequence := 5, has_end_list := true,
              has_i_frames_only := false, has_independent_segments := false,
              segments := [seg 5] } 0]).1).countP isStreamEnd ≤ 1) ∧
    (([] : List Ev).countP isStreamEnd = 0 ∧
      ∀ st2, some (not_modified { MediaPlaylistCheck.new with ended := true }) = some st2 →
        st2.ended = true) ∧
    (((next_playlist MediaPlaylistCheck.new (exch 1)
        { target_duration_millis := 6000, media_sequence := 5, has_end_list := true,
          has_i_frames_only := false, has_independent_segments := false,
          segments := [seg 5] } 0).1).countP isStreamEnd = 1 ∧
      ({ last_playlist := some { playlist :=
            { target_duration_millis := 6000, media_sequence := 5, has_end_list := true,
              has_i_frames_only := false, has_independent_segments := false,
              segments := [seg 5] }, href := exch 1 },
          timeline := [seg 5], since_last_update := 0,
          last_fresh_playlist_req := some (exch 1), final_msn := none, ended := true,
          last_error := LastError.none } : MediaPlaylistCheck).ended = true) :=
  ⟨end_of_stream_idempotence.1
      [Op.nextPlaylist (exch 1)
          { target_duration_millis := 6000, media_sequence := 5, has_end_list := true,
            has_i_frames_only := false, has_independent_segments := false,
            segments := [seg 5] } 0,
        Op.nextPlaylist (exch 2)
          { target_duration_millis := 6000, media_sequence := 5, has_end_list := true,
            has_i_frames_only := false, has_independent_segments := false,
            segments := [seg 5] } 0],
   end_of_stream_idempotence.2.1 { MediaPlaylistCheck.new with ended := true }
      Op.notModified [] [] (some (not_modified { MediaPlaylistCheck.new with ended := true }))
      rfl rfl,
   end_of_stream_idempotence.2.2 MediaPlaylistCheck.new (exch 1)
      { target_duration_millis := 6000, media_sequence := 5, has_end_list := true,
        has_i_frames_only := false, has_independent_segments := false,
        segments := [seg 5] } 0
      { last_playlist := some { playlist :=
          { target_duration_millis := 6000, media_sequence := 5, has_end_list := true,
            has_i_frames_only := false, has_independent_segments := false,
            segments := [seg 5] }, href := exch 1 },
        timeline := [seg 5], since_last_update := 0,
        last_fresh_playlist_req := some (exch 1), final_msn := none, ended := true,
        last_error := LastError.none }
      rfl rfl (by decide)⟩

/-- Claim C1: (staleness hysteresis): starting from a tracking engine whose
final MSN is unknown (staleness counter 0, fresh reference `fr`), a
baseline-establishing sane call reporting last segment `n` emits nothing;
three further sane calls reporting the identical last segment number `n`
emit, in order: nothing, one warning-severity manifest-stale event, one
error-severity manifest-stale event (reference pair spanning `fr` to the
current exchange); a call whose last segment number `m` is strictly greater
emits nothing, resets the counter to zero (hence 1 after the unconditional
per-call increment), and updates the fresh baseline reference, so that one
more no-progress call again emits nothing. -/
theorem staleness_hysteresis (n m : Nat) (hnm : n < m)
    (tl : Timeline) (fr : Exchange) (b : Bool) (le : LastError) :
    ((runOps (staleStart n tl fr b le) ((staleOps n m).take 1)).1 = []) ∧
    ((runOps (staleStart n tl fr b le) ((staleOps n m).take 2)).1 = []) ∧
    ((runOps (staleStart n tl fr b le) ((staleOps n m).take 3)).1 =
      [(Severity.warning, HlsEvent.manifestStale
        { before := { req_id := fr, line := none }
          after := { req_id := exch 3, line := none } } 2)]) ∧
    ((runOps (staleStart n tl fr b le) ((staleOps n m).take 4)).1 =
      [(Severity.warning, HlsEvent.manifestStale
        { before := { req_id := fr, line := none }
          after := { req_id := exch 3, line := none } } 2),
       (Severity.error, HlsEvent.manifestStale
        { before := { req_id := fr, line := none }
          after := { req_id := exch 4, line := none } } 3)]) ∧
    ((runOps (staleStart n tl fr b le) ((staleOps n m).take 5)).1 =
      [(Severity.warning, HlsEvent.manifestStale
        { before := { req_id := fr, line := none }
          after := { req_id := exch 3, line := none } } 2),
       (Severity.error, HlsEvent.manifestStale
        { before := { req_id := fr, line := none }
          after := { req_id := exch 4, line := none } } 3)]) ∧
    ((runOps (staleStart n tl fr b le) (staleOps n m)).1 =
      [(Severity.warning, HlsEvent.manifestStale
        { before := { req_id := fr, line := none }
          after := { req_id := exch 3, line := none } } 2),
       (Severity.error, HlsEvent.manifestStale
        { before := { req_id := fr, line := none }
          after := { req_id := exch 4, line := none } } 3)]) ∧
    ((runOps (staleStart n tl fr b le) ((staleOps n m).take 5)).2.map
      (fun s => (s.since_last_update, s.last_fresh_playlist_req, s.final_msn)) =
      some (1, some (exch 5), some m)) := by
  have hd : ¬ (m ≤ n) := by omega
  have hd2 : ¬ (m < n) := by omega
  have hdrop : List.drop (m - n) [seg n] = [] := by
    apply List.drop_eq_nil_of_le
    simp
    omega
  have hsegnum : ∀ k, (seg k).number = k := fun k => rfl
  have hct : ∀ i, (exch i).content_type = some "application/vnd.apple.mpegurl" := fun i => rfl
  have hagh : ∀ i, (exch i).age_header = none := fun i => rfl
  have hdh : ∀ i, (exch i).date_header = none := fun i => rfl
  have hlmh : ∀ i, (exch i).last_modified_header = none := fun i => rfl
  refine ⟨?_, ?_, ?_, ?_, ?_, ?_, ?_⟩ <;>
    simp +decide [staleOps, staleStart, trackingState, runOps, applyOp, next_playlist,
      check_invariant_properties, check_update, check_manifest_history_invariant,
      historyPairs, history_loop, check_segment_invariant, check_stale, update_timeline,
      Timeline.remove_older_than, Timeline.append_new_segments, MediaPlaylist.last_segment,
      oneSegPlaylist, plMk, delta, check_headers, age, header_val, parse_http_date,
      next_playlist_finish, hd, hd2, hdrop, hsegnum, hct, hagh, hdh, hlmh,
      Nat.add_sub_cancel]

theorem staleness_hysteresis_witness :
    ((runOps (staleStart 5 [] (exch 0) false LastError.none) ((staleOps 5 6).take 1)).1 = []) ∧
    ((runOps (staleStart 5 [] (exch 0) false LastError.none) ((staleOps 5 6).take 2)).1 = []) ∧
    ((runOps (staleStart 5 [] (exch 0) false LastError.none) ((staleOps 5 6).take 3)).1 =
      [(Severity.warning, HlsEvent.manifestStale
        { before := { req_id := exch 0, line := none }
          after := { req_id := exch 3, line := none } } 2)]) ∧
    ((runOps (staleStart 5 [] (exch 0) false LastError.none) ((staleOps 5 6).take 4)).1 =
      [(Severity.warning, HlsEvent.manifestStale
        { before := { req_id := exch 0, line := none }
          after := { req_id := exch 3, line := none } } 2),
       (Severity.error, HlsEvent.manifestStale
        { before := { req_id := exch 0, line := none }
          after := { req_id := exch 4, line := none } } 3)]) ∧
    ((runOps (staleStart 5 [] (exch 0) false LastError.none) ((staleOps 5 6).take 5)).1 =
      [(Severity.warning, HlsEvent.manifestStale
        { before := { req_id := exch 0, line := none }
          after := { req_id := exch 3, line := none } } 2),
       (Severity.error, HlsEvent.manifestStale
        { before := { req_id := exch 0, line := none }
          after := { req_id := exch 4, line := none } } 3)]) ∧
    ((runOps (staleStart 5 [] (exch 0) false LastError.none) (staleOps 5 6)).1 =
      [(Severity.warning, HlsEvent.manifestStale
        { before := { req_id := exch 0, line := none }
          after := { req_id := exch 3, line := none } } 2),
       (Severity.error, HlsEvent.manifestStale
        { before := { req_id := exch 0, line := none }
          after := { req_id := exch 4, line := none } } 3)]) ∧
    ((runOps (staleStart 5 [] (exch 0) false LastError.none) ((staleOps 5 6).take 5)).2.map
      (fun s => (s.since_last_update, s.last_fresh_playlist_req, s.final_msn)) =
      some (1, some (exch 5), some 6)) :=
  staleness_hysteresis 5 6 (by decide) [] (exch 0) false LastError.none
